import Mathlib

/-!
Verification development for the prom-tools repository (Python).

Shallow embedding of the code in src/src/prom_tools:
  models.py      (Query, Metric, QueryResult, from_response, from_error)
  exceptions.py  (the exception taxonomy)
  base.py        (response handling and the tenacity retry wrapper)
  prometheus.py  (query, query_range, query_multiple / execute_single_query)

Modelling conventions:
  JSON bodies are an inductive Json type (numbers as rationals).
  Python dicts are association lists with first-key-wins lookup.
  datetime values are modelled as Unix epoch seconds (a rational number);
  datetime.fromtimestamp is the identity on numeric epoch seconds and a
  TypeError on anything else.
  Raising is modelled with Except PyExc; asyncio.CancelledError derives from
  BaseException (not Exception), which the model records in isException.
  pydantic field validation (strict str fields, as in pydantic v2) is modelled
  at the point where a field value is converted.
-/

set_option maxRecDepth 40000

namespace PromTools

/-- JSON values, as decoded by response.json(). Objects are association lists
(first binding wins, mirroring dict lookup); numbers are rationals. -/
inductive Json where
  | null : Json
  | bool (b : Bool) : Json
  | num (q : ℚ) : Json
  | str (s : String) : Json
  | arr (elems : List Json) : Json
  | obj (fields : List (String × Json)) : Json

/-- Association-list lookup, first binding wins (dict access). -/
def alist_get {α : Type} (kvs : List (String × α)) (k : String) : Option α :=
  match kvs with
  | [] => none
  | kv :: rest => if kv.1 = k then some kv.2 else alist_get rest k

/-- The exception taxonomy: the classes of exceptions.py plus the Python
builtins and the tenacity RetryError that the embedded code can raise.
The response attribute of APIError defaults to an empty dict and is never
populated at any raise site in the repository; it is kept as an Option Json
field that every raise site leaves at none. -/
inductive PyExc where
  | apiError (message : String) (statusCode : Option Nat) (resp : Option Json)
  | prometheusError (message : String) (statusCode : Option Nat) (resp : Option Json)
  | grafanaError (message : String) (statusCode : Option Nat) (resp : Option Json)
  | authenticationError (message : String) (statusCode : Option Nat) (resp : Option Json)
  | rateLimitError (message : String) (retryAfter : Option Int) (statusCode : Option Nat)
      (resp : Option Json)
  | configurationError (message : String)
  | validationError (message : String)
  | valueError (message : String)
  | typeError (message : String)
  | attributeError (message : String)
  | keyError (key : String)
  | indexError (message : String)
  | retryError (last : PyExc)
  | cancelledError

/-- Whether the exception is caught by an `except Exception` clause.
asyncio.CancelledError derives from BaseException since Python 3.8, so it is
the one exception in the model that `except Exception` does not catch. -/
def isException : PyExc → Bool
  | .cancelledError => false
  | _ => true

/-- Whether the exception is an instance of the library class ValidationError
(exceptions.py line 61). The builtin ValueError is unrelated to it. -/
def PyExc.isValidationError : PyExc → Bool
  | .validationError _ => true
  | _ => false

/-- Whether the exception is an instance of AuthenticationError
(exceptions.py line 38). AuthenticationError subclasses APIError, so a plain
APIError instance is not an AuthenticationError instance. -/
def PyExc.isAuthenticationError : PyExc → Bool
  | .authenticationError _ _ _ => true
  | _ => false

/-- Python truthiness of a JSON value: None, False, 0, empty string, empty
list and empty dict are falsy. -/
def pyTruthy : Json → Bool
  | .null => false
  | .bool b => b
  | .num q => q ≠ 0
  | .str s => s ≠ ""
  | .arr xs => !xs.isEmpty
  | .obj kvs => !kvs.isEmpty

/-- Python len() on a JSON value; TypeError for values without a length. -/
def pyLen : Json → Except PyExc Nat
  | .str s => .ok s.length
  | .arr xs => .ok xs.length
  | .obj kvs => .ok kvs.length
  | _ => .error (.typeError "object has no len")

/-- Python subscription v[i] with a non-negative int index. Lists index
positionally, strings yield one-character strings, dicts raise KeyError for
an int key (dict keys in decoded JSON are strings), the rest raise
TypeError. -/
def pyIndex : Json → Nat → Except PyExc Json
  | .arr xs, i =>
    match xs.get? i with
    | some x => .ok x
    | none => .error (.indexError "list index out of range")
  | .str s, i =>
    match s.data.get? i with
    | some c => .ok (.str (String.mk [c]))
    | none => .error (.indexError "string index out of range")
  | .obj _, i => .error (.keyError (toString i))
  | _, _ => .error (.typeError "object is not subscriptable")

/-- Python iteration over a JSON value: lists yield elements, strings yield
one-character strings, dicts yield their keys; the rest raise TypeError. -/
def pyIter : Json → Except PyExc (List Json)
  | .arr xs => .ok xs
  | .str s => .ok (s.data.map (fun c => Json.str (String.mk [c])))
  | .obj kvs => .ok (kvs.map (fun kv => Json.str kv.1))
  | _ => .error (.typeError "object is not iterable")

/-- Parse a decimal digit. -/
def digitVal (c : Char) : Option Nat :=
  if c.isDigit then some (c.toNat - 48) else none

/-- Parse a non-empty digit string to a natural number. -/
def parseDigits (cs : List Char) : Option Nat :=
  match cs with
  | [] => none
  | _ =>
    cs.foldl (fun acc c =>
      match acc, digitVal c with
      | some n, some d => some (n * 10 + d)
      | _, _ => none) (some 0)

/-- Model of the Python builtin int() on a string: an optional sign followed
by decimal digits; anything else raises ValueError. (Surrounding whitespace
and underscore separators are not modelled; no call site produces them.) -/
def pyIntOfString (s : String) : Option Int :=
  match s.data with
  | '-' :: rest => (parseDigits rest).map (fun n => -(n : Int))
  | '+' :: rest => (parseDigits rest).map (fun n => (n : Int))
  | cs => (parseDigits cs).map (fun n => (n : Int))

/-- Model of the Python builtin float() on a string: an optional sign,
integer digits and an optional fractional part, read as an exact rational.
(Exponent notation and inf/nan spellings are not modelled; no claim depends
on them.) -/
def pyFloatOfString (s : String) : Option ℚ :=
  let core : List Char → Option ℚ := fun cs =>
    match cs.splitOn '.' with
    | [intPart] => (parseDigits intPart).map (fun n => (n : ℚ))
    | [intPart, fracPart] =>
      match parseDigits intPart, parseDigits fracPart with
      | some n, some f => some ((n : ℚ) + (f : ℚ) / ((10 : ℚ) ^ fracPart.length))
      | _, _ => none
    | _ => none
  match s.data with
  | '-' :: rest => (core rest).map (fun q => -q)
  | '+' :: rest => core rest
  | cs => core cs

/-- Model of the Python builtin float() on a JSON value: numbers pass
through, booleans coerce, strings parse (ValueError on failure), everything
else raises TypeError. -/
def pyFloat : Json → Except PyExc ℚ
  | .num q => .ok q
  | .bool b => .ok (if b then 1 else 0)
  | .str s =>
    match pyFloatOfString s with
    | some q => .ok q
    | none => .error (.valueError ("could not convert string to float: \x27" ++ s ++ "\x27"))
  | _ => .error (.typeError "float() argument must be a string or a real number")

/-- Model of datetime.fromtimestamp: the identity on numeric epoch seconds
(booleans coerce as ints), a TypeError otherwise. -/
def pyFromtimestamp : Json → Except PyExc ℚ
  | .num q => .ok q
  | .bool b => .ok (if b then 1 else 0)
  | _ => .error (.typeError "an integer is required")

/-- Conversion of a JSON value into a pydantic str field: only genuine
strings are accepted (pydantic v2 strictness for str). -/
def asStr : Json → Except PyExc String
  | .str s => .ok s
  | _ => .error (.validationError "input should be a valid string")

/-- Attribute access .get or .items on a JSON value: only dicts have these
attributes, anything else raises AttributeError. -/
def asObjAttr : Json → Except PyExc (List (String × Json))
  | .obj kvs => .ok kvs
  | _ => .error (.attributeError "object has no attribute get")

/-- Whether the JSON value equals a given Python string under == (values of
other types never equal a string). -/
def jsonEqString (j : Json) (s : String) : Bool :=
  match j with
  | .str t => t = s
  | _ => false

/-- The step field of a Query: Optional[Union[str, int]]. -/
inductive StepValue where
  | str (s : String)
  | int (n : Int)
deriving DecidableEq

/-- Python truthiness of an optional step value (`not query_obj.step`):
None, the empty string and 0 are falsy. -/
def pyTruthyStep : Option StepValue → Bool
  | none => false
  | some (.str s) => s ≠ ""
  | some (.int n) => n ≠ 0

/-- models.py Query: unified query definition for both instant and range
queries. The start and end datetimes are epoch seconds; end is written «end»
because end is a Lean keyword. -/
structure Query where
  name : Option String
  query : String
  description : Option String
  category : Option String
  timeout : Option String
  start : Option ℚ
  «end» : Option ℚ
  step : Option StepValue
deriving DecidableEq

/-- models.py Query.is_range_query: both start and end are set. -/
def Query.is_range_query (q : Query) : Bool :=
  q.start.isSome && q.«end».isSome

/-- models.py Query.is_instant_query. -/
def Query.is_instant_query (q : Query) : Bool :=
  !q.is_range_query

/-- models.py Query.query_type. -/
def Query.query_type (q : Query) : String :=
  if q.is_range_query then "range" else "instant"

/-- models.py Query.display_name:
name or query[:50] + ("..." if len(query) > 50 else "").
A None name and an empty-string name are both falsy, so both fall through
to the truncated query text. -/
def Query.display_name (q : Query) : String :=
  match q.name with
  | some s => if s ≠ "" then s else q.query.take 50 ++ (if q.query.length > 50 then "..." else "")
  | none => q.query.take 50 ++ (if q.query.length > 50 then "..." else "")

/-- One element of Metric.values: the dict with a timestamp key and a value
key built in the matrix branch of from_response. -/
structure SamplePoint where
  timestamp : ℚ
  value : ℚ
deriving DecidableEq

/-- models.py Metric: unified metric model. Labels keep the iteration order
of the source dict. -/
structure Metric where
  name : String
  labels : List (String × String)
  value : Option ℚ
  timestamp : Option ℚ
  values : Option (List SamplePoint)
deriving DecidableEq

/-- models.py QueryResult. The data field holds the raw response body. -/
structure QueryResult where
  query_name : Option String
  query : String
  query_type : String
  success : Bool
  status : String
  metrics : List Metric
  error : Option String
  execution_time : Option ℚ
  data : Option Json

/-- The reserved metric-name label. -/
def reservedNameLabel : String := "__name__"

/-- String form of an exception, as the Python str() builtin produces it:
APIError.__str__ appends the HTTP status when the status code is truthy;
exceptions that keep the default __str__ show their message; KeyError shows
the repr of the missing key; str() of a bare CancelledError is empty.
(The address-dependent str() of a tenacity RetryError is abbreviated to a
bracketed form; no claim inspects it.) -/
def excStr : PyExc → String
  | .apiError m c _ => m ++ (match c with
      | some n => if n ≠ 0 then " (HTTP " ++ toString n ++ ")" else ""
      | none => "")
  | .prometheusError m c _ => m ++ (match c with
      | some n => if n ≠ 0 then " (HTTP " ++ toString n ++ ")" else ""
      | none => "")
  | .grafanaError m c _ => m ++ (match c with
      | some n => if n ≠ 0 then " (HTTP " ++ toString n ++ ")" else ""
      | none => "")
  | .authenticationError m c _ => m ++ (match c with
      | some n => if n ≠ 0 then " (HTTP " ++ toString n ++ ")" else ""
      | none => "")
  | .rateLimitError m _ c _ => m ++ (match c with
      | some n => if n ≠ 0 then " (HTTP " ++ toString n ++ ")" else ""
      | none => "")
  | .configurationError m => m
  | .validationError m => m
  | .valueError m => m
  | .typeError m => m
  | .attributeError m => m
  | .keyError k => "\x27" ++ k ++ "\x27"
  | .indexError m => m
  | .retryError last => "RetryError[" ++ excStr last ++ "]"
  | .cancelledError => ""

/-- models.py QueryResult.from_error: always a failed result with
status error, the stringified exception and no metrics. -/
def QueryResult.from_error (query_name : Option String) (query : String) (error : PyExc)
    (execution_time : Option ℚ) (query_type : String) : QueryResult :=
  { query_name := query_name
    query := query
    query_type := query_type
    success := false
    status := "error"
    metrics := []
    error := some (excStr error)
    execution_time := execution_time
    data := none }

/-- Convert the label pairs of a series metric dict (minus the reserved name
label) into the Dict[str, str] labels field; a non-string label value fails
pydantic validation. -/
def labelsStrings : List (String × Json) → Except PyExc (List (String × String))
  | [] => .ok []
  | kv :: rest => do
    let s ← asStr kv.2
    let tail ← labelsStrings rest
    .ok ((kv.1, s) :: tail)

/-- The truthiness-and-length guard of the vector branch:
`if value_data and len(value_data) >= 2:`. A missing or falsy value field
skips the series; a truthy value without a length raises TypeError. -/
def vectorValueCheck : Option Json → Except PyExc Bool
  | none => .ok false
  | some j =>
    if pyTruthy j then
      (pyLen j).map (fun n => decide (2 ≤ n))
    else
      .ok false

/-- Whether the vector branch silently skips the series for this value field
(the guard evaluates to false without raising). -/
def vector_value_skipped (vd : Option Json) : Bool :=
  match vectorValueCheck vd with
  | .ok b => !b
  | .error _ => false

/-- The matrix-branch loop body over item.get("values", []): pairs shorter
than 2 are skipped; for the others the timestamp is converted with
datetime.fromtimestamp and the sample with float(), in source order. -/
def matrixPoints : List Json → Except PyExc (List SamplePoint)
  | [] => .ok []
  | vp :: rest => do
    let n ← pyLen vp
    if 2 ≤ n then
      let ts ← pyFromtimestamp ((pyIndex vp 0).toOption.getD .null)
      let v ← pyFloat ((pyIndex vp 1).toOption.getD .null)
      let tail ← matrixPoints rest
      .ok (⟨ts, v⟩ :: tail)
    else
      matrixPoints rest

/-- Per-item body of the result loop in from_response (models.py lines
175 to 201): computes the metric name and labels, then appends one Metric in
the vector branch when the value guard passes, one Metric per series in the
matrix branch, and nothing otherwise. Argument evaluation inside the
Metric(...) call follows the source order: value and timestamp expressions
run before pydantic validates the name and labels fields. -/
def fromResponseItem (result_type : Json) (item : Json) : Except PyExc (List Metric) := do
  let itemObj ← asObjAttr item
  let metricJ := (alist_get itemObj "metric").getD (.obj [])
  let metricObj ← asObjAttr metricJ
  let nameJ := (alist_get metricObj reservedNameLabel).getD (.str "unknown")
  let labelPairs := metricObj.filter (fun kv => kv.1 ≠ reservedNameLabel)
  if jsonEqString result_type "vector" then
    let vd := alist_get itemObj "value"
    let taken ← vectorValueCheck vd
    if taken then
      let jv := (vd.getD .null)
      let v ← pyFloat ((pyIndex jv 1).toOption.getD .null)
      let ts ← pyFromtimestamp ((pyIndex jv 0).toOption.getD .null)
      let name ← asStr nameJ
      let labels ← labelsStrings labelPairs
      .ok [{ name := name, labels := labels, value := some v, timestamp := some ts,
             values := none }]
    else
      .ok []
  else if jsonEqString result_type "matrix" then
    let valuesJ := (alist_get itemObj "values").getD (.arr [])
    let pairs ← pyIter valuesJ
    let points ← matrixPoints pairs
    let name ← asStr nameJ
    let labels ← labelsStrings labelPairs
    .ok [{ name := name, labels := labels, value := none, timestamp := none,
           values := some points }]
  else
    .ok []

/-- The error field of a failed from_response result:
response.get("error", "Unknown error"). A missing key yields the generic
message, a present null yields an unset field, a present string is kept, and
any other type fails pydantic validation of the Optional[str] field. -/
def errorFieldValue (kvs : List (String × Json)) : Except PyExc (Option String) :=
  match alist_get kvs "error" with
  | none => .ok (some "Unknown error")
  | some .null => .ok none
  | some (.str s) => .ok (some s)
  | some _ => .error (.validationError "input should be a valid string")

/-- The metric-building part of the success branch of from_response: when a
data field is present, walk data.result and collect the metrics each series
contributes. -/
def successMetrics (kvs : List (String × Json)) : Except PyExc (List Metric) :=
  match alist_get kvs "data" with
  | none => .ok []
  | some dataJ => do
    let dataObj ← asObjAttr dataJ
    let result_type := (alist_get dataObj "resultType").getD (.str "")
    let resultsJ := (alist_get dataObj "result").getD (.arr [])
    let items ← pyIter resultsJ
    let metricLists ← items.mapM (fromResponseItem result_type)
    .ok metricLists.flatten

/-- models.py QueryResult.from_response. A non-success status produces a
failed result carrying the response error field; a success status walks
data.result and builds metrics per series. Calling .get on a non-dict body
raises AttributeError. -/
def QueryResult.from_response (query_name : Option String) (query : String) (response : Json)
    (execution_time : Option ℚ) (query_type : String) : Except PyExc QueryResult :=
  match response with
  | .obj kvs =>
    let statusJ := (alist_get kvs "status").getD (.str "unknown")
    if jsonEqString statusJ "success" then do
      let metrics ← successMetrics kvs
      .ok { query_name := query_name
            query := query
            query_type := query_type
            success := true
            status := "success"
            metrics := metrics
            error := none
            execution_time := execution_time
            data := some response }
    else do
      let status ← asStr statusJ
      let err ← errorFieldValue kvs
      .ok { query_name := query_name
            query := query
            query_type := query_type
            success := false
            status := status
            metrics := []
            error := err
            execution_time := execution_time
            data := some response }
  | _ => .error (.attributeError "object has no attribute get")

/-- An HTTP response as seen by _handle_response in base.py: the status
code, the header list (plain lookup; no call site depends on header-name
case) and the textual and decoded JSON forms of the body. -/
structure HttpResponse where
  status : Nat
  headers : List (String × String)
  bodyText : String
  bodyJson : Json

/-- base.py BaseAsyncClient._handle_response: the status-code to exception
mapping applied to every response. 429 raises RateLimitError with the parsed
Retry-After header (int() of a malformed header raises ValueError); 401
raises a plain APIError with the message Authentication failed; any other
status of at least 400 raises APIError carrying the status code and the
response text; lower statuses raise nothing. -/
def handle_response (r : HttpResponse) : Option PyExc :=
  if r.status = 429 then
    let retryAfter := (alist_get r.headers "Retry-After").getD ""
    if retryAfter ≠ "" then
      match pyIntOfString retryAfter with
      | some n => some (.rateLimitError "Rate limit exceeded" (some n) (some r.status) none)
      | none => some (.valueError ("invalid literal for int() with base 10: \x27"
          ++ retryAfter ++ "\x27"))
    else
      some (.rateLimitError "Rate limit exceeded" none (some r.status) none)
  else if r.status = 401 then
    some (.apiError "Authentication failed" (some r.status) none)
  else if 400 ≤ r.status then
    some (.apiError ("Request failed: " ++ r.bodyText) (some r.status) none)
  else
    none

/-- One attempt of the underlying HTTP call inside _request: either the
transport delivers a response, or it raises before a response exists. -/
inductive AttemptOutcome where
  | response (r : HttpResponse)
  | netError (e : PyExc)

/-- The Python outcome of a single attempt: a transport exception
propagates, otherwise _handle_response may raise, otherwise the decoded
body is returned. -/
def attemptResult (a : AttemptOutcome) : Except PyExc Json :=
  match a with
  | .netError e => .error e
  | .response r =>
    match handle_response r with
    | some e => .error e
    | none => .ok r.bodyJson

/-- The attempt bound of the tenacity decorator on _request:
stop_after_attempt(3), a literal constant in base.py line 79. -/
def stopAfterAttemptCount : Nat := 3

/-- tenacity wait_exponential(multiplier, min, max) for a given retry
number: the doubling exponential clamped between min and max. With the
configured (1, 4, 10) the two waits the loop can perform are both clamped
up to 4 seconds. -/
def waitExponentialValue (multiplier mn mx : ℚ) (retryNumber : Nat) : ℚ :=
  max (max 0 mn) (min (multiplier * 2 ^ retryNumber) mx)

/-- The wait before the n-th retry under the decorator configuration
wait_exponential(multiplier=1, min=4, max=10) of base.py line 80. -/
def retryWaitSeconds (n : Nat) : ℚ :=
  waitExponentialValue 1 4 10 n

/-- The tenacity retry loop around one logical request: n is the 1-based
attempt number, the second argument the number of retries still allowed.
tenacity retries only exceptions caught by except Exception, so a raised
BaseException (cancellation) propagates immediately; when attempts are
exhausted the last exception is wrapped in RetryError (the decorator does
not set reraise). Returns the number of attempts performed and the
outcome. -/
def tenacityLoop (attempts : Nat → AttemptOutcome) : Nat → Nat → Nat × Except PyExc Json
  | n, 0 =>
    (n, match attemptResult (attempts n) with
        | .ok b => .ok b
        | .error e => .error (if isException e then PyExc.retryError e else e))
  | n, r + 1 =>
    match attemptResult (attempts n) with
    | .ok b => (n, .ok b)
    | .error e =>
      if isException e then tenacityLoop attempts (n + 1) r else (n, .error e)

/-- base.py BaseAsyncClient._request as wrapped by the retry decorator. The
client configuration stores max_retries (base.py line 29) but the decorator
uses the literal stop_after_attempt(3), so the max_retries argument is never
consulted. -/
def request_with_retry (_max_retries : Nat) (attempts : Nat → AttemptOutcome) :
    Nat × Except PyExc Json :=
  tenacityLoop attempts 1 (stopAfterAttemptCount - 1)

/-- The catch clauses of PrometheusClient.query (prometheus.py lines 73 to
76): an explicit except asyncio.CancelledError clause and an except
Exception clause, each returning a failed result via from_error. -/
def queryCatch (query : String) (e : PyExc) : Except PyExc QueryResult :=
  match e with
  | .cancelledError => .ok (QueryResult.from_error none query .cancelledError none "instant")
  | _ =>
    if isException e then .ok (QueryResult.from_error none query e none "instant")
    else .error e

/-- PrometheusClient.query: runs the instant-query request (its outcome is
the argument) and builds a result from the response or from the caught
exception. from_response runs inside the try block, so its exceptions are
converted too. -/
def queryInstant (query : String) (_query_time : Option ℚ) (_timeout : Option String)
    (outcome : Except PyExc Json) : Except PyExc QueryResult :=
  match outcome with
  | .ok resp =>
    match QueryResult.from_response none query resp none "instant" with
    | .ok r => .ok r
    | .error e => queryCatch query e
  | .error e => queryCatch query e

/-- The single catch clause of PrometheusClient.query_range (prometheus.py
lines 108 to 109): except Exception only — there is no CancelledError
clause here, so cancellation propagates. -/
def queryRangeCatch (query : String) (e : PyExc) : Except PyExc QueryResult :=
  if isException e then .ok (QueryResult.from_error none query e none "range")
  else .error e

/-- PrometheusClient.query_range: runs the range-query request and builds a
result from the response or from the caught exception. -/
def queryRange (query : String) (_start _endTime : ℚ) (_step : StepValue)
    (_timeout : Option String) (outcome : Except PyExc Json) : Except PyExc QueryResult :=
  match outcome with
  | .ok resp =>
    match QueryResult.from_response none query resp none "range" with
    | .ok r => .ok r
    | .error e => queryRangeCatch query e
  | .error e => queryRangeCatch query e

/-- execute_single_query, the per-task closure inside query_multiple
(prometheus.py lines 429 to 461): dispatches on the query type, stamps the
elapsed wall time on the result, overrides the result name when the Query
has a truthy name, and converts exceptions caught by its except Exception
clause into a failed result carrying the elapsed time. The semaphore around
the body only schedules tasks and does not change any per-task value. -/
def execute_single_query (q : Query) (query_time : Option ℚ)
    (outcome : Except PyExc Json) (elapsed : ℚ) : Except PyExc QueryResult :=
  let inner :=
    if q.is_range_query then
      queryRange q.query (q.start.getD 0) (q.«end».getD 0) (q.step.getD (.str ""))
        q.timeout outcome
    else
      queryInstant q.query query_time q.timeout outcome
  match inner with
  | .ok r =>
    .ok { r with
          execution_time := some elapsed
          query_name :=
            match q.name with
            | some s => if s ≠ "" then some s else r.query_name
            | none => r.query_name }
  | .error e =>
    if isException e then
      .ok (QueryResult.from_error q.name q.query e (some elapsed) q.query_type)
    else
      .error e

/-- The loose-mapping input shape of query_multiple: the keys the
normalization code reads. A none query field models a dict without the
required query key, which raises KeyError. -/
structure QueryDict where
  name : Option String
  query : Option String
  start : Option ℚ
  «end» : Option ℚ
  step : Option StepValue

/-- The three accepted input shapes of query_multiple. -/
inductive QueryInput where
  | str (s : String)
  | queryObj (q : Query)
  | dict (d : QueryDict)

/-- The ValueError raised for a range query without a step
(prometheus.py lines 410 and 421). -/
def range_step_error (queryText : String) : PyExc :=
  .valueError ("Range query \x27" ++ queryText ++ "\x27 requires step parameter")

/-- The per-input branch of the normalization loop in query_multiple
(prometheus.py lines 402 to 425): strings become unnamed instant Queries,
Query objects and dicts are checked for a truthy step whenever start and
end make them range queries. The raised error is the builtin ValueError,
not the ValidationError class of exceptions.py. -/
def normalize_input : QueryInput → Except PyExc Query
  | .str s => .ok ⟨none, s, none, none, none, none, none, none⟩
  | .queryObj q =>
    if q.is_range_query && !pyTruthyStep q.step then .error (range_step_error q.query)
    else .ok q
  | .dict d =>
    match d.query with
    | none => .error (.keyError "query")
    | some qs =>
      let q : Query := ⟨d.name, qs, none, none, none, d.start, d.«end», d.step⟩
      if q.is_range_query && !pyTruthyStep q.step then .error (range_step_error q.query)
      else .ok q

/-- asyncio.gather over the task outcomes with the default
return_exceptions=False: if every task returns a result the list comes back
in task order; a task that raises makes gather raise. Which raising task
wins is scheduler-dependent in Python; the model picks the first in list
order (all theorems that touch the raising case use a single task). -/
def asyncio_gather (tasks : List (Except PyExc QueryResult)) :
    Except PyExc (List QueryResult) :=
  tasks.mapM (fun t => t)

/-- PrometheusClient.query_multiple (prometheus.py lines 364 to 464): the
normalization loop runs eagerly over all inputs and its first exception
aborts the call before any task exists; then one task per Query runs
execute_single_query and gather collects the results in input order. The
environment env gives the transport outcome of the i-th task and clock its
elapsed wall time; max_concurrent only sizes the semaphore. -/
def query_multiple (inputs : List QueryInput) (query_time : Option ℚ)
    (_max_concurrent : Nat) (env : Nat → Except PyExc Json) (clock : Nat → ℚ) :
    Except PyExc (List QueryResult) :=
  match inputs.mapM normalize_input with
  | .error e => .error e
  | .ok query_objects =>
    asyncio_gather (query_objects.enum.map
      (fun p => execute_single_query p.2 query_time (env p.1) (clock p.1)))

/-! Concrete data and response builders used by the theorems below. -/

/-- A transport environment whose every attempt yields an HTTP 404. -/
def allFail404 : Nat → AttemptOutcome := fun _ => .response ⟨404, [], "nf", .null⟩

/-- A transport environment where the first query succeeds with an empty
vector body and every later query raises an APIError. -/
def mixedEnv : Nat → Except PyExc Json :=
  fun i => if i = 0 then .ok (.obj [("status", .str "success")])
    else .error (.apiError "boom" none none)

/-- Whether the response body is a dict whose error key holds an explicit
null. -/
def hasNullErrorField : Json → Bool
  | .obj kvs =>
    match alist_get kvs "error" with
    | some .null => true
    | _ => false
  | _ => false

/-- A failure response whose error field is an explicit null. -/
def nullErrorResponse : Json := .obj [("status", .str "failed"), ("error", .null)]

/-- The result from_response builds for nullErrorResponse: failed, but with
the error field unset because the response carried error null. -/
def nullErrorResult : QueryResult :=
  { query_name := none, query := "up", query_type := "instant", success := false,
    status := "failed", metrics := [], error := none, execution_time := none,
    data := some nullErrorResponse }

/-- A concrete non-success response with a string error field. -/
def failedResponse0 : Json := .obj [("status", .str "error"), ("error", .str "boom")]

/-- The result from_response builds for failedResponse0. -/
def failedResult0 : QueryResult :=
  { query_name := none, query := "q", query_type := "instant", success := false,
    status := "error", metrics := [], error := some "boom", execution_time := none,
    data := some failedResponse0 }

/-- One series sample as it occurs in a response body: the epoch timestamp,
the raw JSON sample value, and the number it parses to. -/
structure SampleData where
  ts : ℚ
  raw : Json
  val : ℚ

/-- Encode a string-to-string label mapping as a JSON object. -/
def strPairs (m : List (String × String)) : List (String × Json) :=
  m.map (fun kv => (kv.1, Json.str kv.2))

/-- The metric name from_response extracts for a series with label mapping
m: the reserved name label when present, the literal unknown otherwise. -/
def expectedName (m : List (String × String)) : String :=
  (alist_get m reservedNameLabel).getD "unknown"

/-- The label set from_response extracts for a series: all labels except
the reserved name label, in source order. -/
def expectedLabels (m : List (String × String)) : List (String × String) :=
  m.filter (fun kv => kv.1 ≠ reservedNameLabel)

/-- A vector (instant) series of a response body: a metric label object and
one [timestamp, value] sample. -/
def mkVectorSeries (m : List (String × String)) (s : SampleData) : Json :=
  .obj [("metric", .obj (strPairs m)), ("value", .arr [.num s.ts, s.raw])]

/-- The Metric from_response builds for a well-formed vector series: value
and timestamp set, values unset, labels without the reserved name label. -/
def vectorMetric (m : List (String × String)) (s : SampleData) : Metric :=
  { name := expectedName m, labels := expectedLabels m, value := some s.val,
    timestamp := some s.ts, values := none }

/-- A matrix (range) series of a response body: a metric label object and an
ordered list of [timestamp, value] samples. -/
def mkMatrixSeries (m : List (String × String)) (points : List SampleData) : Json :=
  .obj [("metric", .obj (strPairs m)),
        ("values", .arr (points.map (fun s => Json.arr [.num s.ts, s.raw])))]

/-- The Metric from_response builds for a matrix series: values set in
sample order, value and timestamp unset. -/
def matrixMetric (m : List (String × String)) (points : List SampleData) : Metric :=
  { name := expectedName m, labels := expectedLabels m, value := none, timestamp := none,
    values := some (points.map (fun s => ⟨s.ts, s.val⟩)) }

/-- A successful response body with the given resultType and series list. -/
def mkSuccessResponse (result_type : String) (series : List Json) : Json :=
  .obj [("status", .str "success"),
        ("data", .obj [("resultType", .str result_type), ("result", .arr series)])]

/-- A vector series whose value field is given verbatim (possibly absent):
used to exercise the skip guard of the vector branch. -/
def mkVectorSeriesRaw (m : List (String × String)) (vd : Option Json) : Json :=
  .obj ([("metric", .obj (strPairs m))] ++
    (match vd with
     | none => []
     | some j => [("value", j)]))

/-! Shared lemmas about the Except monad and the embedded helpers. -/

theorem except_ok_bind {ε α β : Type} (a : α) (f : α → Except ε β) :
    (Except.ok a >>= f) = f a := rfl

theorem except_error_bind {ε α β : Type} (e : ε) (f : α → Except ε β) :
    ((Except.error e : Except ε α) >>= f) = Except.error e := rfl

theorem except_bind_error {ε α β : Type} {x : Except ε α} {f : α → Except ε β} {e : ε}
    (h : (x >>= f) = .error e) : x = .error e ∨ ∃ a, x = .ok a ∧ f a = .error e := by
  cases x with
  | error e2 =>
    rw [except_error_bind] at h
    cases h
    exact Or.inl rfl
  | ok a =>
    rw [except_ok_bind] at h
    exact Or.inr ⟨a, rfl, h⟩

theorem isException_of_ne_cancelled {e : PyExc} (h : e ≠ .cancelledError) :
    isException e = true := by
  cases e <;> simp_all [isException]

theorem except_bind_ok {ε α β : Type} {x : Except ε α} {f : α → Except ε β} {b : β}
    (h : (x >>= f) = .ok b) : ∃ a, x = .ok a ∧ f a = .ok b := by
  cases x with
  | error e =>
    rw [except_error_bind] at h
    cases h
  | ok a =>
    rw [except_ok_bind] at h
    exact ⟨a, rfl, h⟩

theorem mapM_ok_length {α β : Type} (f : α → Except PyExc β) :
    ∀ (l : List α) (l2 : List β), l.mapM f = .ok l2 → l2.length = l.length := by
  intro l
  induction l with
  | nil =>
    intro l2 h
    have h2 : (Except.ok ([] : List β) : Except PyExc (List β)) = .ok l2 := h
    cases h2
    rfl
  | cons a rest ih =>
    intro l2 h
    rw [List.mapM_cons] at h
    rcases except_bind_ok h with ⟨b, _, h2⟩
    rcases except_bind_ok h2 with ⟨bs, hbs, h3⟩
    have h4 : (Except.ok (b :: bs) : Except PyExc (List β)) = .ok l2 := h3
    cases h4
    simp [ih bs hbs]

theorem string_take_of_length_le {s : String} {n : Nat} (h : s.length ≤ n) : s.take n = s := by
  apply String.ext
  rw [String.data_take]
  exact List.take_of_length_le h

theorem string_append_empty (s : String) : s ++ "" = s := by
  apply String.ext
  show s.data ++ [] = s.data
  exact List.append_nil _

/-- C9 counterexample: a Query whose name field is present but equal to the
empty string does not use that name: name or ... treats the empty string as
falsy, so display_name falls back to the query text, refuting the claim
that display_name equals the name field whenever a name is present. -/
theorem display_name_ignores_empty_present_name :
    (Query.mk (some "") "up" none none none none none none).name = some "" ∧
    (Query.mk (some "") "up" none none none none none none).display_name = "up" ∧
    ("up" : String) ≠ "" :=
  ⟨rfl, rfl, by decide⟩

/-- C9 (amended): display_name equals the name field when a non-empty name
is present; otherwise (name absent or empty) it equals the query text when
that text is at most 50 characters long, and the first 50 characters of the
query text followed by the ellipsis marker when the text is longer. -/
theorem display_name_spec (q : Query) :
    (∀ s, q.name = some s → s ≠ "" → q.display_name = s) ∧
    (q.name = none ∨ q.name = some "" →
      (q.query.length ≤ 50 → q.display_name = q.query) ∧
      (50 < q.query.length → q.display_name = q.query.take 50 ++ "...")) := by
  constructor
  · intro s hs hne
    simp [Query.display_name, hs, hne]
  · intro hn
    constructor
    · intro hlen
      have hnotgt : ¬50 < q.query.length := Nat.not_lt.mpr hlen
      rcases hn with hn | hn <;>
        simp [Query.display_name, hn, hnotgt, string_append_empty,
          string_take_of_length_le hlen]
    · intro hlen
      rcases hn with hn | hn <;> simp [Query.display_name, hn, hlen]

/-- C9 witness: a non-empty present name is used verbatim, and a query text
of length 80 without a name is truncated to its first 50 characters plus
the ellipsis marker. -/
theorem display_name_spec_witness :
    (Query.mk (some "cpu") "up" none none none none none none).display_name = "cpu" ∧
    (Query.mk none (String.mk (List.replicate 80 'a'))
        none none none none none none).display_name
      = (String.mk (List.replicate 80 'a')).take 50 ++ "..." := by
  constructor
  · exact (display_name_spec _).1 "cpu" rfl (by decide)
  · exact ((display_name_spec _).2 (Or.inl rfl)).2 (by decide)

/-- C3: a range-query task cancelled while awaiting its request does not
produce a failed Result. asyncio.CancelledError derives from BaseException
since Python 3.8, and query_range and execute_single_query catch only
Exception, so the cancellation escapes the task (first conjunct) and aborts
the surrounding gather. The instant path converts the same cancellation
into a failed Result because query has an explicit except CancelledError
clause (second conjunct) — the behavior the claim describes for every
task. -/
theorem execute_single_query_range_cancellation_escapes :
    execute_single_query ⟨none, "up", none, none, none, some 0, some 1, some (.str "15s")⟩
        none (.error .cancelledError) 0 = .error .cancelledError ∧
    execute_single_query ⟨none, "up", none, none, none, none, none, none⟩
        none (.error .cancelledError) 0
      = .ok (QueryResult.from_error none "up" .cancelledError (some 0) "instant") :=
  ⟨rfl, rfl⟩

/-- C2 counterexample: a batch whose single input is a range-query dict
without a step aborts with the builtin ValueError, not with the
ValidationError class of exceptions.py, refuting the claimed error type
(every other part of the claim holds, see the amended theorem). -/
theorem query_multiple_missing_step_value_error :
    query_multiple [.dict ⟨none, some "up", some 0, some 1, none⟩] none 10
        (fun _ => .ok .null) (fun _ => 0)
      = .error (.valueError "Range query \x27up\x27 requires step parameter") ∧
    PyExc.isValidationError
        (.valueError "Range query \x27up\x27 requires step parameter") = false :=
  ⟨rfl, rfl⟩

/-- C2 (amended): when the inputs before the offending one all normalize
successfully and some input normalizes to a Query with start and end set
but a falsy step, query_multiple fails with the builtin ValueError naming
the offending query text. The conclusion holds for every transport
environment and whatever inputs follow, so the whole batch aborts before
any network call is issued. -/
theorem query_multiple_missing_step_aborts
    (pre : List QueryInput) (bad : QueryInput) (rest : List QueryInput)
    (badText : String)
    (hbad : normalize_input bad = .error (range_step_error badText))
    (hpre : ∀ x ∈ pre, ∃ q, normalize_input x = .ok q) :
    ∀ (query_time : Option ℚ) (mc : Nat) (env : Nat → Except PyExc Json)
      (clock : Nat → ℚ),
      query_multiple (pre ++ bad :: rest) query_time mc env clock
        = .error (range_step_error badText) := by
  intro query_time mc env clock
  have hmap : (pre ++ bad :: rest).mapM normalize_input = .error (range_step_error badText) := by
    induction pre with
    | nil =>
      rw [List.nil_append, List.mapM_cons, hbad, except_error_bind]
    | cons x xs ih =>
      rcases hpre x (by simp) with ⟨q, hq⟩
      rw [List.cons_append, List.mapM_cons, hq, except_ok_bind,
        ih (fun y hy => hpre y (by simp [hy])), except_error_bind]
  unfold query_multiple
  rw [hmap]

/-- C2 witness: a concrete batch with a valid string input before the
offending dict and another input after it aborts with the ValueError, for
a concrete environment. -/
theorem query_multiple_missing_step_aborts_witness :
    query_multiple [.str "ok", .dict ⟨none, some "up", some 0, some 1, none⟩, .str "later"]
        none 10 (fun _ => .ok .null) (fun _ => 0)
      = .error (range_step_error "up") :=
  query_multiple_missing_step_aborts [.str "ok"]
    (.dict ⟨none, some "up", some 0, some 1, none⟩) [.str "later"] "up" rfl
    (by
      intro x hx
      rcases List.mem_singleton.mp hx with rfl
      exact ⟨⟨none, "ok", none, none, none, none, none, none⟩, rfl⟩)
    none 10 (fun _ => .ok .null) (fun _ => 0)

/-- C4 counterexample: a 401 response raises the plain APIError with the
message Authentication failed; the raised exception is not an instance of
the AuthenticationError class of exceptions.py, refuting the claimed
mapping for 401. -/
theorem handle_response_401_not_authentication_error :
    handle_response ⟨401, [], "", .null⟩
      = some (.apiError "Authentication failed" (some 401) none) ∧
    PyExc.isAuthenticationError (.apiError "Authentication failed" (some 401) none) = false :=
  ⟨rfl, rfl⟩

/-- C4 (amended): the status-code mapping of _handle_response. A 401 raises
a plain APIError with the message Authentication failed; a 429 raises
RateLimitError carrying the parsed Retry-After seconds when a non-empty
header that parses as an integer is present, and no retry-after value when
the header is absent or empty; every other status of at least 400 raises
APIError carrying the status code and the response body; statuses below
400 raise nothing. -/
theorem handle_response_status_mapping (r : HttpResponse) :
    (r.status = 401 →
      handle_response r = some (.apiError "Authentication failed" (some 401) none)) ∧
    (r.status = 429 → (alist_get r.headers "Retry-After").getD "" = "" →
      handle_response r = some (.rateLimitError "Rate limit exceeded" none (some 429) none)) ∧
    (∀ s n, r.status = 429 → (alist_get r.headers "Retry-After").getD "" = s → s ≠ "" →
      pyIntOfString s = some n →
      handle_response r
        = some (.rateLimitError "Rate limit exceeded" (some n) (some 429) none)) ∧
    (400 ≤ r.status → r.status ≠ 401 → r.status ≠ 429 →
      handle_response r
        = some (.apiError ("Request failed: " ++ r.bodyText) (some r.status) none)) ∧
    (r.status < 400 → handle_response r = none) := by
  refine ⟨?_, ?_, ?_, ?_, ?_⟩
  · intro h401
    simp [handle_response, h401]
  · intro h429 hh
    simp [handle_response, h429, hh]
  · intro s n h429 hh hne hparse
    simp [handle_response, h429, hh, hne, hparse]
  · intro hge h401 h429
    simp [handle_response, h429, h401, hge]
  · intro hlt
    have h429 : r.status ≠ 429 := by omega
    have h401 : r.status ≠ 401 := by omega
    simp [handle_response, h429, h401, Nat.not_le.mpr hlt]

/-- C4 witness: the amended mapping evaluated on a 429 response with a
Retry-After header of 7 seconds. -/
theorem handle_response_status_mapping_witness :
    handle_response ⟨429, [("Retry-After", "7")], "", .null⟩
      = some (.rateLimitError "Rate limit exceeded" (some 7) (some 429) none) :=
  (handle_response_status_mapping ⟨429, [("Retry-After", "7")], "", .null⟩).2.2.1 "7" 7
    rfl rfl (by decide) rfl

/-- C5 counterexample: with a client configured with max_retries of 5, a
request whose every attempt returns 404 — a status the claim calls
non-transient and excluded from the retry loop — is attempted exactly 3
times (the literal stop_after_attempt(3) of the decorator), identically to
a client configured with max_retries of 0, and ends in tenacity RetryError
wrapping the APIError. So non-transient 4xx statuses do trigger the retry
loop and the configured max_retries count is not what bounds it. -/
theorem request_with_retry_not_as_claimed :
    request_with_retry 5 allFail404 = request_with_retry 0 allFail404 ∧
    (request_with_retry 5 allFail404).1 = 3 ∧
    request_with_retry 5 allFail404
      = (3, .error (.retryError (.apiError "Request failed: nf" (some 404) none))) :=
  ⟨rfl, rfl, rfl⟩

/-- C5 (amended): the retry loop of _request ignores the client max_retries
configuration and performs at most the literal 3 attempts of
stop_after_attempt(3); it retries on any raised Exception — transport
failures and every HTTP-error status alike, transient or not — while a
raised BaseException (cancellation) propagates immediately without retry;
after the third failed attempt the last exception is wrapped in RetryError;
the waits between attempts follow wait_exponential(multiplier=1, min=4,
max=10), whose clamped doubling yields 4 seconds before each of the two
possible retries. -/
theorem request_with_retry_semantics :
    (∀ m m2 f, request_with_retry m f = request_with_retry m2 f) ∧
    (∀ m f b, attemptResult (f 1) = .ok b → request_with_retry m f = (1, .ok b)) ∧
    (∀ m f e b, attemptResult (f 1) = .error e → isException e = true →
      attemptResult (f 2) = .ok b → request_with_retry m f = (2, .ok b)) ∧
    (∀ m f e1 e2 e3, attemptResult (f 1) = .error e1 → isException e1 = true →
      attemptResult (f 2) = .error e2 → isException e2 = true →
      attemptResult (f 3) = .error e3 → isException e3 = true →
      request_with_retry m f = (3, .error (.retryError e3))) ∧
    (∀ m f e, attemptResult (f 1) = .error e → isException e = false →
      request_with_retry m f = (1, .error e)) ∧
    retryWaitSeconds 1 = 4 ∧ retryWaitSeconds 2 = 4 := by
  refine ⟨fun m m2 f => rfl, ?_, ?_, ?_, ?_, ?_, ?_⟩
  · intro m f b h1
    simp [request_with_retry, stopAfterAttemptCount, tenacityLoop, h1]
  · intro m f e b h1 he1 h2
    simp [request_with_retry, stopAfterAttemptCount, tenacityLoop, h1, he1, h2]
  · intro m f e1 e2 e3 h1 he1 h2 he2 h3 he3
    simp [request_with_retry, stopAfterAttemptCount, tenacityLoop, h1, he1, h2, he2, h3, he3]
  · intro m f e h1 he1
    simp [request_with_retry, stopAfterAttemptCount, tenacityLoop, h1, he1]
  · norm_num [retryWaitSeconds, waitExponentialValue]
  · norm_num [retryWaitSeconds, waitExponentialValue]

/-- C5 witness: the exhaustion case of the amended semantics applied to the
all-404 environment under a max_retries configuration of 7. -/
theorem request_with_retry_semantics_witness :
    request_with_retry 7 allFail404
      = (3, .error (.retryError (.apiError "Request failed: nf" (some 404) none))) :=
  request_with_retry_semantics.2.2.2.1 7 allFail404
    (.apiError "Request failed: nf" (some 404) none)
    (.apiError "Request failed: nf" (some 404) none)
    (.apiError "Request failed: nf" (some 404) none)
    rfl rfl rfl rfl rfl rfl

/-- C6 counterexample: a failure response whose error key holds an explicit
null produces a Result with success false but with the error field unset
(response.get returns the present null rather than the default message),
refuting the invariant that success false implies the error field is
set. -/
theorem from_response_null_error_unset :
    QueryResult.from_response none "up" nullErrorResponse none "instant" = .ok nullErrorResult ∧
    nullErrorResult.success = false ∧
    nullErrorResult.error = none ∧
    nullErrorResult.metrics = [] :=
  ⟨rfl, rfl, rfl, rfl⟩

/-- C6 (amended): every Result the builder constructs satisfies: success
false implies metrics is empty and the error field is set unless the
response carried an explicit null error value; success true implies the
status string equals success. from_error always yields success false with
empty metrics and the error field set. -/
theorem result_builder_invariant :
    (∀ query_name query resp t ty r,
      QueryResult.from_response query_name query resp t ty = .ok r →
      (r.success = false →
        r.metrics = [] ∧ (r.error.isSome = true ∨ hasNullErrorField resp = true)) ∧
      (r.success = true → r.status = "success")) ∧
    (∀ query_name query e t ty,
      (QueryResult.from_error query_name query e t ty).success = false ∧
      (QueryResult.from_error query_name query e t ty).metrics = [] ∧
      (QueryResult.from_error query_name query e t ty).error.isSome = true) := by
  constructor
  · intro qn q resp t ty r h
    cases resp with
    | obj kvs =>
      simp only [QueryResult.from_response] at h
      split at h
      · rcases except_bind_ok h with ⟨m, _, h2⟩
        have h3 : (Except.ok (⟨qn, q, ty, true, "success", m, none, t,
            some (.obj kvs)⟩ : QueryResult) : Except PyExc QueryResult) = .ok r := h2
        cases h3
        constructor
        · intro hs
          simp at hs
        · intro _
          rfl
      · rcases except_bind_ok h with ⟨st, _, h2⟩
        rcases except_bind_ok h2 with ⟨err, herr, h3⟩
        have h4 : (Except.ok (⟨qn, q, ty, false, st, [], err, t,
            some (.obj kvs)⟩ : QueryResult) : Except PyExc QueryResult) = .ok r := h3
        cases h4
        constructor
        · intro _
          refine ⟨rfl, ?_⟩
          cases he : alist_get kvs "error" with
          | none =>
            simp [errorFieldValue, he] at herr
            subst herr
            simp
          | some j =>
            cases j <;> simp [errorFieldValue, he] at herr
            · subst herr
              simp [hasNullErrorField, he]
            · subst herr
              simp
        · intro hs
          simp at hs
    | null => exact Except.noConfusion h
    | bool b => exact Except.noConfusion h
    | num x => exact Except.noConfusion h
    | str s => exact Except.noConfusion h
    | arr xs => exact Except.noConfusion h
  · intro qn q e t ty
    exact ⟨rfl, rfl, rfl⟩

/-- C6 witness: the invariant evaluated on a concrete non-success response
carrying a string error. -/
theorem result_builder_invariant_witness :
    failedResult0.metrics = [] ∧
    (failedResult0.error.isSome = true ∨ hasNullErrorField failedResponse0 = true) :=
  (result_builder_invariant.1 none "q" failedResponse0 none "instant" failedResult0 rfl).1 rfl

/-! Lemmas about the per-series metric extraction of from_response. -/

theorem alist_get_strPairs (m : List (String × String)) (k : String) :
    alist_get (strPairs m) k = (alist_get m k).map Json.str := by
  induction m with
  | nil => rfl
  | cons kv rest ih =>
    by_cases h : kv.1 = k
    · simp [strPairs, alist_get, h]
    · simpa [strPairs, alist_get, h] using ih

theorem strPairs_filter (m : List (String × String)) :
    (strPairs m).filter (fun kv => kv.1 ≠ reservedNameLabel)
      = strPairs (expectedLabels m) := by
  induction m with
  | nil => rfl
  | cons kv rest ih =>
    by_cases h : kv.1 = reservedNameLabel <;>
      simpa [strPairs, expectedLabels, List.filter_cons, h] using ih

theorem labelsStrings_strPairs (m : List (String × String)) :
    labelsStrings (strPairs m) = .ok m := by
  induction m with
  | nil => rfl
  | cons kv rest ih =>
    simp only [strPairs, List.map_cons, labelsStrings, asStr]
    rw [except_ok_bind]
    simp only [strPairs] at ih
    rw [ih, except_ok_bind]

theorem asStr_reserved_name (m : List (String × String)) :
    asStr ((alist_get (strPairs m) reservedNameLabel).getD (.str "unknown"))
      = .ok (expectedName m) := by
  rw [alist_get_strPairs]
  cases h : alist_get m reservedNameLabel <;> simp [asStr, expectedName, h]

theorem fromResponseItem_vector (m : List (String × String)) (s : SampleData)
    (h : pyFloat s.raw = .ok s.val) :
    fromResponseItem (.str "vector") (mkVectorSeries m s) = .ok [vectorMetric m s] := by
  have h1 : fromResponseItem (.str "vector") (mkVectorSeries m s)
      = (pyFloat s.raw >>= fun v =>
         pyFromtimestamp (.num s.ts) >>= fun ts =>
         asStr ((alist_get (strPairs m) reservedNameLabel).getD (.str "unknown")) >>= fun name =>
         labelsStrings ((strPairs m).filter (fun kv => kv.1 ≠ reservedNameLabel)) >>=
           fun labels =>
         .ok [⟨name, labels, some v, some ts, none⟩]) := rfl
  rw [h1, h, except_ok_bind,
    show pyFromtimestamp (.num s.ts) = .ok s.ts from rfl, except_ok_bind,
    asStr_reserved_name, except_ok_bind, strPairs_filter, labelsStrings_strPairs,
    except_ok_bind]
  rfl

theorem mapM_vector_items (series : List (List (String × String) × SampleData))
    (h : ∀ x ∈ series, pyFloat x.2.raw = .ok x.2.val) :
    (series.map (fun x => mkVectorSeries x.1 x.2)).mapM (fromResponseItem (.str "vector"))
      = .ok (series.map (fun x => [vectorMetric x.1 x.2])) := by
  induction series with
  | nil => rfl
  | cons a rest ih =>
    simp only [List.map_cons, List.mapM_cons]
    rw [fromResponseItem_vector a.1 a.2 (h a (by simp)), except_ok_bind,
      ih (fun x hx => h x (by simp [hx])), except_ok_bind]
    rfl

theorem flatten_singletons {α β : Type} (g : α → β) (l : List α) :
    (l.map (fun x => [g x])).flatten = l.map g := by
  induction l <;> simp [*]

theorem successMetrics_build (result_type : String) (series : List Json)
    (ls : List (List Metric))
    (hitems : series.mapM (fromResponseItem (.str result_type)) = .ok ls) :
    successMetrics [("status", .str "success"),
        ("data", .obj [("resultType", .str result_type), ("result", .arr series)])]
      = .ok ls.flatten := by
  have h1 : successMetrics [("status", .str "success"),
        ("data", .obj [("resultType", .str result_type), ("result", .arr series)])]
      = (series.mapM (fromResponseItem (.str result_type)) >>= fun mls =>
          .ok mls.flatten) := rfl
  rw [h1, hitems, except_ok_bind]

theorem from_response_success_build (qn : Option String) (q : String) (ty : String)
    (result_type : String) (series : List Json) (ls : List (List Metric))
    (hitems : series.mapM (fromResponseItem (.str result_type)) = .ok ls) :
    QueryResult.from_response qn q (mkSuccessResponse result_type series) none ty
      = .ok { query_name := qn, query := q, query_type := ty, success := true,
              status := "success", metrics := ls.flatten, error := none,
              execution_time := none,
              data := some (mkSuccessResponse result_type series) } := by
  have h1 : QueryResult.from_response qn q (mkSuccessResponse result_type series) none ty
      = (successMetrics [("status", .str "success"),
          ("data", .obj [("resultType", .str result_type), ("result", .arr series)])] >>=
          fun metrics =>
          .ok ⟨qn, q, ty, true, "success", metrics, none, none,
            some (mkSuccessResponse result_type series)⟩) := rfl
  rw [h1, successMetrics_build result_type series ls hitems, except_ok_bind]

/-- C7: for every successful vector body each of whose series carries a
parseable [timestamp, sample] pair, from_response yields one Metric per
series, in order, with value the parsed scalar sample, timestamp set,
values unset, and labels the metric labels minus the reserved name label;
a one-series body therefore yields exactly one such Metric. -/
theorem from_response_vector_metrics (qn : Option String) (q : String)
    (series : List (List (String × String) × SampleData))
    (h : ∀ x ∈ series, pyFloat x.2.raw = .ok x.2.val) :
    QueryResult.from_response qn q
        (mkSuccessResponse "vector" (series.map (fun x => mkVectorSeries x.1 x.2)))
        none "instant"
      = .ok { query_name := qn, query := q, query_type := "instant", success := true,
              status := "success",
              metrics := series.map (fun x => vectorMetric x.1 x.2),
              error := none, execution_time := none,
              data := some (mkSuccessResponse "vector"
                (series.map (fun x => mkVectorSeries x.1 x.2))) } := by
  rw [from_response_success_build qn q "instant" "vector" _ _ (mapM_vector_items series h),
    flatten_singletons]

/-- C7 witness: a body with exactly one series (labels instance=a plus the
reserved name label, sample string "1" at epoch 17) yields exactly one
Metric with value 1, timestamp 17, values unset and the reserved label
stripped. -/
theorem from_response_vector_metrics_witness :
    QueryResult.from_response none "up"
        (mkSuccessResponse "vector"
          [mkVectorSeries [("__name__", "up"), ("instance", "a")] ⟨17, .str "1", 1⟩])
        none "instant"
      = .ok { query_name := none, query := "up", query_type := "instant", success := true,
              status := "success",
              metrics := [vectorMetric [("__name__", "up"), ("instance", "a")]
                ⟨17, .str "1", 1⟩],
              error := none, execution_time := none,
              data := some (mkSuccessResponse "vector"
                [mkVectorSeries [("__name__", "up"), ("instance", "a")] ⟨17, .str "1", 1⟩]) } := by
  have h := from_response_vector_metrics none "up"
    [([("__name__", "up"), ("instance", "a")], ⟨17, .str "1", 1⟩)]
    (by
      intro x hx
      rcases List.mem_singleton.mp hx with rfl
      rfl)
  simpa using h

theorem matrixPoints_build (points : List SampleData)
    (h : ∀ s ∈ points, pyFloat s.raw = .ok s.val) :
    matrixPoints (points.map (fun s => Json.arr [.num s.ts, s.raw]))
      = .ok (points.map (fun s => (⟨s.ts, s.val⟩ : SamplePoint))) := by
  induction points with
  | nil => rfl
  | cons a rest ih =>
    have h2 : matrixPoints (List.map (fun s => Json.arr [.num s.ts, s.raw]) (a :: rest))
        = (pyFloat a.raw >>= fun v =>
           matrixPoints (rest.map (fun s => Json.arr [.num s.ts, s.raw])) >>= fun tail =>
           .ok (⟨a.ts, v⟩ :: tail)) := rfl
    rw [h2, h a (by simp), except_ok_bind, ih (fun s hs => h s (by simp [hs])),
      except_ok_bind]
    rfl

theorem fromResponseItem_matrix (m : List (String × String)) (points : List SampleData)
    (h : ∀ s ∈ points, pyFloat s.raw = .ok s.val) :
    fromResponseItem (.str "matrix") (mkMatrixSeries m points)
      = .ok [matrixMetric m points] := by
  have h1 : fromResponseItem (.str "matrix") (mkMatrixSeries m points)
      = (matrixPoints (points.map (fun s => Json.arr [.num s.ts, s.raw])) >>= fun pts =>
         asStr ((alist_get (strPairs m) reservedNameLabel).getD (.str "unknown")) >>= fun name =>
         labelsStrings ((strPairs m).filter (fun kv => kv.1 ≠ reservedNameLabel)) >>=
           fun labels =>
         .ok [⟨name, labels, none, none, some pts⟩]) := rfl
  rw [h1, matrixPoints_build points h, except_ok_bind, asStr_reserved_name,
    except_ok_bind, strPairs_filter, labelsStrings_strPairs, except_ok_bind]
  rfl

theorem mapM_matrix_items (series : List (List (String × String) × List SampleData))
    (h : ∀ x ∈ series, ∀ s ∈ x.2, pyFloat s.raw = .ok s.val) :
    (series.map (fun x => mkMatrixSeries x.1 x.2)).mapM (fromResponseItem (.str "matrix"))
      = .ok (series.map (fun x => [matrixMetric x.1 x.2])) := by
  induction series with
  | nil => rfl
  | cons a rest ih =>
    simp only [List.map_cons, List.mapM_cons]
    rw [fromResponseItem_matrix a.1 a.2 (h a (by simp)), except_ok_bind,
      ih (fun x hx => h x (by simp [hx])), except_ok_bind]
    rfl

/-- C8: for every successful matrix body each of whose series carries an
ordered list of parseable [timestamp, sample] pairs, from_response yields
one Metric per series whose values sequence is exactly the sample list in
original order (hence of length N for a series with N pairs), with value
and timestamp unset. -/
theorem from_response_matrix_metrics (qn : Option String) (q : String)
    (series : List (List (String × String) × List SampleData))
    (h : ∀ x ∈ series, ∀ s ∈ x.2, pyFloat s.raw = .ok s.val) :
    QueryResult.from_response qn q
        (mkSuccessResponse "matrix" (series.map (fun x => mkMatrixSeries x.1 x.2)))
        none "range"
      = .ok { query_name := qn, query := q, query_type := "range", success := true,
              status := "success",
              metrics := series.map (fun x => matrixMetric x.1 x.2),
              error := none, execution_time := none,
              data := some (mkSuccessResponse "matrix"
                (series.map (fun x => mkMatrixSeries x.1 x.2))) } ∧
    ∀ x ∈ series,
      (matrixMetric x.1 x.2).values = some (x.2.map (fun s => (⟨s.ts, s.val⟩ : SamplePoint))) ∧
      (x.2.map (fun s => (⟨s.ts, s.val⟩ : SamplePoint))).length = x.2.length ∧
      (matrixMetric x.1 x.2).value = none ∧
      (matrixMetric x.1 x.2).timestamp = none := by
  constructor
  · rw [from_response_success_build qn q "range" "matrix" _ _ (mapM_matrix_items series h),
      flatten_singletons]
  · intro x _
    exact ⟨rfl, by simp, rfl, rfl⟩

/-- C8 witness: a matrix body with one series of two timestamped samples
yields one Metric whose values list has the two points in order, with value
unset. -/
theorem from_response_matrix_metrics_witness :
    QueryResult.from_response none "up"
        (mkSuccessResponse "matrix"
          [mkMatrixSeries [("__name__", "up")] [⟨1, .num 5, 5⟩, ⟨2, .num 7, 7⟩]])
        none "range"
      = .ok { query_name := none, query := "up", query_type := "range", success := true,
              status := "success",
              metrics := [matrixMetric [("__name__", "up")] [⟨1, .num 5, 5⟩, ⟨2, .num 7, 7⟩]],
              error := none, execution_time := none,
              data := some (mkSuccessResponse "matrix"
                [mkMatrixSeries [("__name__", "up")] [⟨1, .num 5, 5⟩, ⟨2, .num 7, 7⟩]]) } ∧
    (matrixMetric [("__name__", "up")] [⟨1, .num 5, 5⟩, ⟨2, .num 7, 7⟩]).values
      = some [⟨1, 5⟩, ⟨2, 7⟩] := by
  have h := from_response_matrix_metrics none "up"
    [([("__name__", "up")], [⟨1, .num 5, 5⟩, ⟨2, .num 7, 7⟩])]
    (by
      intro x hx s hs
      rcases List.mem_singleton.mp hx with rfl
      simp only [List.mem_cons, List.not_mem_nil, or_false] at hs
      rcases hs with rfl | rfl <;> rfl)
  exact ⟨by simpa using h.1, rfl⟩

theorem vectorValueCheck_skipped (vd : Option Json) (h : vector_value_skipped vd = true) :
    vectorValueCheck vd = .ok false := by
  unfold vector_value_skipped at h
  cases hc : vectorValueCheck vd with
  | ok b =>
    rw [hc] at h
    cases b
    · rfl
    · simp at h
  | error e =>
    rw [hc] at h
    simp at h

theorem fromResponseItem_vector_skips (m : List (String × String)) (vd : Option Json)
    (h : vector_value_skipped vd = true) :
    fromResponseItem (.str "vector") (mkVectorSeriesRaw m vd) = .ok [] := by
  cases vd with
  | none => rfl
  | some j =>
    have hc := vectorValueCheck_skipped (some j) h
    have h1 : fromResponseItem (.str "vector") (mkVectorSeriesRaw m (some j))
        = (vectorValueCheck (some j) >>= fun taken =>
           if taken then
             pyFloat ((pyIndex j 1).toOption.getD .null) >>= fun v =>
             pyFromtimestamp ((pyIndex j 0).toOption.getD .null) >>= fun ts =>
             asStr ((alist_get (strPairs m) reservedNameLabel).getD (.str "unknown")) >>=
               fun name =>
             labelsStrings ((strPairs m).filter (fun kv => kv.1 ≠ reservedNameLabel)) >>=
               fun labels =>
             .ok [⟨name, labels, some v, some ts, none⟩]
           else .ok []) := rfl
    rw [h1, hc, except_ok_bind]
    rfl

/-- C10: in a successful vector body, a series whose value field is absent,
falsy (such as null or an empty array) or shorter than two elements
contributes no Metric and does not fail the Result: the body below has two
series but the successful Result carries only the Metric of the
well-formed one, so a vector Result can have fewer Metrics than the body
has series. -/
theorem from_response_vector_skips_series (qn : Option String) (q : String)
    (m1 : List (String × String)) (vd : Option Json)
    (m2 : List (String × String)) (s : SampleData)
    (hskip : vector_value_skipped vd = true)
    (hs : pyFloat s.raw = .ok s.val) :
    QueryResult.from_response qn q
        (mkSuccessResponse "vector" [mkVectorSeriesRaw m1 vd, mkVectorSeries m2 s])
        none "instant"
      = .ok { query_name := qn, query := q, query_type := "instant", success := true,
              status := "success", metrics := [vectorMetric m2 s], error := none,
              execution_time := none,
              data := some (mkSuccessResponse "vector"
                [mkVectorSeriesRaw m1 vd, mkVectorSeries m2 s]) } ∧
    ([vectorMetric m2 s] : List Metric).length
      < ([mkVectorSeriesRaw m1 vd, mkVectorSeries m2 s] : List Json).length := by
  constructor
  · have hitems : ([mkVectorSeriesRaw m1 vd, mkVectorSeries m2 s] : List Json).mapM
        (fromResponseItem (.str "vector")) = .ok [[], [vectorMetric m2 s]] := by
      rw [List.mapM_cons, fromResponseItem_vector_skips m1 vd hskip, except_ok_bind,
        List.mapM_cons, fromResponseItem_vector m2 s hs, except_ok_bind]
      rfl
    have hb := from_response_success_build qn q "instant" "vector" _ _ hitems
    simpa using hb
  · simp

/-- C10 witness: a two-series vector body whose first series carries a
one-element value array yields a successful Result with exactly one
Metric. -/
theorem from_response_vector_skips_series_witness :
    QueryResult.from_response none "up"
        (mkSuccessResponse "vector"
          [mkVectorSeriesRaw [("job", "api")] (some (.arr [.num 1])),
           mkVectorSeries [("__name__", "up")] ⟨17, .num 1, 1⟩])
        none "instant"
      = .ok { query_name := none, query := "up", query_type := "instant", success := true,
              status := "success",
              metrics := [vectorMetric [("__name__", "up")] ⟨17, .num 1, 1⟩], error := none,
              execution_time := none,
              data := some (mkSuccessResponse "vector"
                [mkVectorSeriesRaw [("job", "api")] (some (.arr [.num 1])),
                 mkVectorSeries [("__name__", "up")] ⟨17, .num 1, 1⟩]) } :=
  (from_response_vector_skips_series none "up" [("job", "api")] (some (.arr [.num 1]))
    [("__name__", "up")] ⟨17, .num 1, 1⟩ rfl rfl).1

/-! Every exception the Result Builder can raise is an Exception (never the
BaseException-derived cancellation), so the task-level except Exception
clauses convert it. -/

theorem asObjAttr_error : ∀ {j : Json} {e : PyExc},
    asObjAttr j = .error e → isException e = true := by
  intro j e h
  cases j <;> first
    | exact Except.noConfusion h
    | (injection h with h2; subst h2; rfl)

theorem asStr_error : ∀ {j : Json} {e : PyExc},
    asStr j = .error e → isException e = true := by
  intro j e h
  cases j <;> first
    | exact Except.noConfusion h
    | (injection h with h2; subst h2; rfl)

theorem pyIter_error : ∀ {j : Json} {e : PyExc},
    pyIter j = .error e → isException e = true := by
  intro j e h
  cases j <;> first
    | exact Except.noConfusion h
    | (injection h with h2; subst h2; rfl)

theorem pyLen_error : ∀ {j : Json} {e : PyExc},
    pyLen j = .error e → isException e = true := by
  intro j e h
  cases j <;> first
    | exact Except.noConfusion h
    | (injection h with h2; subst h2; rfl)

theorem pyFromtimestamp_error : ∀ {j : Json} {e : PyExc},
    pyFromtimestamp j = .error e → isException e = true := by
  intro j e h
  cases j <;> first
    | exact Except.noConfusion h
    | (injection h with h2; subst h2; rfl)

theorem pyFloat_error : ∀ {j : Json} {e : PyExc},
    pyFloat j = .error e → isException e = true := by
  intro j e h
  cases j with
  | str s =>
    have h2 : (match pyFloatOfString s with
        | some q => Except.ok q
        | none => Except.error (PyExc.valueError
            ("could not convert string to float: \x27" ++ s ++ "\x27"))) = .error e := h
    cases hp : pyFloatOfString s with
    | some q => rw [hp] at h2; exact Except.noConfusion h2
    | none => rw [hp] at h2; injection h2 with h3; subst h3; rfl
  | null => injection h with h2; subst h2; rfl
  | bool b => exact Except.noConfusion h
  | num x => exact Except.noConfusion h
  | arr xs => injection h with h2; subst h2; rfl
  | obj kvs => injection h with h2; subst h2; rfl

theorem pyIndex_error : ∀ {j : Json} {i : Nat} {e : PyExc},
    pyIndex j i = .error e → isException e = true := by
  intro j i e h
  cases j with
  | arr xs =>
    have h2 : (match xs.get? i with
        | some x => Except.ok x
        | none => Except.error (PyExc.indexError "list index out of range")) = .error e := h
    cases hp : xs.get? i with
    | some x => rw [hp] at h2; exact Except.noConfusion h2
    | none => rw [hp] at h2; injection h2 with h3; subst h3; rfl
  | str s =>
    have h2 : (match s.data.get? i with
        | some c => Except.ok (Json.str (String.mk [c]))
        | none => Except.error (PyExc.indexError "string index out of range")) = .error e := h
    cases hp : s.data.get? i with
    | some c => rw [hp] at h2; exact Except.noConfusion h2
    | none => rw [hp] at h2; injection h2 with h3; subst h3; rfl
  | obj kvs => injection h with h2; subst h2; rfl
  | null => injection h with h2; subst h2; rfl
  | bool b => injection h with h2; subst h2; rfl
  | num x => injection h with h2; subst h2; rfl

theorem vectorValueCheck_error : ∀ {vd : Option Json} {e : PyExc},
    vectorValueCheck vd = .error e → isException e = true := by
  intro vd e h
  cases vd with
  | none => exact Except.noConfusion h
  | some j =>
    have h2 : (if pyTruthy j = true then Except.map (fun n => decide (2 ≤ n)) (pyLen j)
        else Except.ok false) = .error e := h
    split at h2
    · cases hl : pyLen j with
      | ok n =>
        rw [hl] at h2
        have h4 : (Except.ok (decide (2 ≤ n)) : Except PyExc Bool) = .error e := h2
        exact Except.noConfusion h4
      | error e2 =>
        rw [hl] at h2
        have h4 : (Except.error e2 : Except PyExc Bool) = .error e := h2
        injection h4 with h3
        subst h3
        exact pyLen_error hl
    · exact Except.noConfusion h2

theorem errorFieldValue_error : ∀ {kvs : List (String × Json)} {e : PyExc},
    errorFieldValue kvs = .error e → isException e = true := by
  intro kvs e h
  unfold errorFieldValue at h
  split at h <;> first
    | exact Except.noConfusion h
    | (injection h with h2; subst h2; rfl)

theorem labelsStrings_error : ∀ (kvs : List (String × Json)) {e : PyExc},
    labelsStrings kvs = .error e → isException e = true := by
  intro kvs
  induction kvs with
  | nil => intro e h; exact Except.noConfusion h
  | cons kv rest ih =>
    intro e h
    unfold labelsStrings at h
    rcases except_bind_error h with h | ⟨s, _, h⟩
    · exact asStr_error h
    rcases except_bind_error h with h | ⟨tail, _, h⟩
    · exact ih h
    · exact Except.noConfusion h

theorem matrixPoints_error : ∀ (pairs : List Json) {e : PyExc},
    matrixPoints pairs = .error e → isException e = true := by
  intro pairs
  induction pairs with
  | nil => intro e h; exact Except.noConfusion h
  | cons vp rest ih =>
    intro e h
    unfold matrixPoints at h
    rcases except_bind_error h with h | ⟨n, _, h⟩
    · exact pyLen_error h
    split at h
    · rcases except_bind_error h with h | ⟨ts, _, h⟩
      · exact pyFromtimestamp_error h
      rcases except_bind_error h with h | ⟨v, _, h⟩
      · exact pyFloat_error h
      rcases except_bind_error h with h | ⟨tail, _, h⟩
      · exact ih h
      · exact Except.noConfusion h
    · exact ih h

theorem fromResponseItem_error : ∀ {rt item : Json} {e : PyExc},
    fromResponseItem rt item = .error e → isException e = true := by
  intro rt item e h
  unfold fromResponseItem at h
  rcases except_bind_error h with h | ⟨itemObj, _, h⟩
  · exact asObjAttr_error h
  rcases except_bind_error h with h | ⟨metricObj, _, h⟩
  · exact asObjAttr_error h
  split at h
  · rcases except_bind_error h with h | ⟨taken, _, h⟩
    · exact vectorValueCheck_error h
    split at h
    · rcases except_bind_error h with h | ⟨v, _, h⟩
      · exact pyFloat_error h
      rcases except_bind_error h with h | ⟨ts, _, h⟩
      · exact pyFromtimestamp_error h
      rcases except_bind_error h with h | ⟨name, _, h⟩
      · exact asStr_error h
      rcases except_bind_error h with h | ⟨labels, _, h⟩
      · exact labelsStrings_error _ h
      · exact Except.noConfusion h
    · exact Except.noConfusion h
  · split at h
    · rcases except_bind_error h with h | ⟨pairs, _, h⟩
      · exact pyIter_error h
      rcases except_bind_error h with h | ⟨points, _, h⟩
      · exact matrixPoints_error _ h
      rcases except_bind_error h with h | ⟨name, _, h⟩
      · exact asStr_error h
      rcases except_bind_error h with h | ⟨labels, _, h⟩
      · exact labelsStrings_error _ h
      · exact Except.noConfusion h
    · exact Except.noConfusion h

theorem mapM_fromResponseItem_error : ∀ {rt : Json} (items : List Json) {e : PyExc},
    items.mapM (fromResponseItem rt) = .error e → isException e = true := by
  intro rt items
  induction items with
  | nil => intro e h; exact Except.noConfusion h
  | cons a rest ih =>
    intro e h
    rw [List.mapM_cons] at h
    rcases except_bind_error h with h | ⟨b, _, h⟩
    · exact fromResponseItem_error h
    rcases except_bind_error h with h | ⟨bs, _, h⟩
    · exact ih h
    · exact Except.noConfusion h

theorem successMetrics_error : ∀ {kvs : List (String × Json)} {e : PyExc},
    successMetrics kvs = .error e → isException e = true := by
  intro kvs e h
  unfold successMetrics at h
  split at h
  · exact Except.noConfusion h
  · rcases except_bind_error h with h | ⟨dataObj, _, h⟩
    · exact asObjAttr_error h
    rcases except_bind_error h with h | ⟨items, _, h⟩
    · exact pyIter_error h
    rcases except_bind_error h with h | ⟨mls, _, h⟩
    · exact mapM_fromResponseItem_error _ h
    · exact Except.noConfusion h

theorem from_response_error : ∀ {qn : Option String} {q : String} {resp : Json}
    {t : Option ℚ} {ty : String} {e : PyExc},
    QueryResult.from_response qn q resp t ty = .error e → isException e = true := by
  intro qn q resp t ty e h
  cases resp with
  | obj kvs =>
    simp only [QueryResult.from_response] at h
    split at h
    · rcases except_bind_error h with h | ⟨m, _, h⟩
      · exact successMetrics_error h
      · exact Except.noConfusion h
    · rcases except_bind_error h with h | ⟨st, _, h⟩
      · exact asStr_error h
      rcases except_bind_error h with h | ⟨err, _, h⟩
      · exact errorFieldValue_error h
      · exact Except.noConfusion h
  | null => injection h with h2; subst h2; rfl
  | bool b => injection h with h2; subst h2; rfl
  | num x => injection h with h2; subst h2; rfl
  | str s => injection h with h2; subst h2; rfl
  | arr xs => injection h with h2; subst h2; rfl

/-! Totality of the per-task execution under the task-level catch clauses. -/

theorem queryCatch_ok (query : String) (e : PyExc) :
    ∃ r, queryCatch query e = .ok r := by
  cases e <;> exact ⟨_, rfl⟩

theorem queryInstant_ok (query : String) (qt : Option ℚ) (timeout : Option String)
    (outcome : Except PyExc Json) :
    ∃ r, queryInstant query qt timeout outcome = .ok r := by
  cases outcome with
  | ok resp =>
    have hshow : queryInstant query qt timeout (.ok resp)
        = (match QueryResult.from_response none query resp none "instant" with
           | .ok r => .ok r
           | .error e => queryCatch query e) := rfl
    rw [hshow]
    cases hf : QueryResult.from_response none query resp none "instant" with
    | ok r => exact ⟨r, rfl⟩
    | error e => exact queryCatch_ok query e
  | error e => exact queryCatch_ok query e

theorem queryRangeCatch_ok (query : String) (e : PyExc) (he : isException e = true) :
    queryRangeCatch query e = .ok (QueryResult.from_error none query e none "range") := by
  simp [queryRangeCatch, he]

theorem queryRange_ok (query : String) (st en : ℚ) (step : StepValue)
    (timeout : Option String) (outcome : Except PyExc Json)
    (hout : ∀ e, outcome = .error e → isException e = true) :
    ∃ r, queryRange query st en step timeout outcome = .ok r := by
  cases outcome with
  | ok resp =>
    have hshow : queryRange query st en step timeout (.ok resp)
        = (match QueryResult.from_response none query resp none "range" with
           | .ok r => .ok r
           | .error e => queryRangeCatch query e) := rfl
    rw [hshow]
    cases hf : QueryResult.from_response none query resp none "range" with
    | ok r => exact ⟨r, rfl⟩
    | error e => exact ⟨_, queryRangeCatch_ok query e (from_response_error hf)⟩
  | error e => exact ⟨_, queryRangeCatch_ok query e (hout e rfl)⟩

theorem execute_single_query_ok (q : Query) (qt : Option ℚ)
    (outcome : Except PyExc Json) (elapsed : ℚ)
    (hout : ∀ e, outcome = .error e → isException e = true) :
    ∃ r, execute_single_query q qt outcome elapsed = .ok r := by
  unfold execute_single_query
  by_cases hr : q.is_range_query
  · rcases queryRange_ok q.query (q.start.getD 0) (q.«end».getD 0) (q.step.getD (.str ""))
      q.timeout outcome hout with ⟨r, hrr⟩
    exact ⟨_, by rw [if_pos hr, hrr]⟩
  · rcases queryInstant_ok q.query qt q.timeout outcome with ⟨r, hrr⟩
    exact ⟨_, by rw [if_neg hr, hrr]⟩

theorem asyncio_gather_ok (tasks : List (Except PyExc QueryResult))
    (h : ∀ t ∈ tasks, ∃ r, t = .ok r) :
    ∃ rs, asyncio_gather tasks = .ok rs ∧ rs.length = tasks.length ∧
      ∀ i (hi : i < tasks.length) (hr : i < rs.length),
        tasks.get ⟨i, hi⟩ = .ok (rs.get ⟨i, hr⟩) := by
  induction tasks with
  | nil => exact ⟨[], rfl, rfl, fun i hi _ => absurd hi (by simp)⟩
  | cons t ts ih =>
    rcases h t (by simp) with ⟨r, rfl⟩
    rcases ih (fun t2 ht2 => h t2 (by simp [ht2])) with ⟨rs, hg, hlen, hidx⟩
    refine ⟨r :: rs, ?_, by simp [hlen], ?_⟩
    · show ((Except.ok r :: ts).mapM (fun t => t)) = .ok (r :: rs)
      rw [List.mapM_cons, except_ok_bind,
        show ts.mapM (fun t => t) = asyncio_gather ts from rfl, hg, except_ok_bind]
      rfl
    · intro i hi hr
      cases i with
      | zero => rfl
      | succ n => exact hidx n (by simpa using hi) (by simpa using hr)

/-- C1: when every input normalizes (so query_multiple reaches dispatch)
and every transport outcome that raises raises an Exception (failures, as
opposed to BaseException cancellation), query_multiple returns a list of
Results whose length equals the input length and whose i-th element is
exactly the Result execute_single_query produces for the i-th normalized
query, regardless of how many of those per-query outcomes were failures. -/
theorem query_multiple_order_and_length (inputs : List QueryInput)
    (query_time : Option ℚ) (mc : Nat) (env : Nat → Except PyExc Json)
    (clock : Nat → ℚ) (qs : List Query)
    (hnorm : inputs.mapM normalize_input = .ok qs)
    (henv : ∀ i e, env i = .error e → isException e = true) :
    ∃ rs, query_multiple inputs query_time mc env clock = .ok rs ∧
      rs.length = inputs.length ∧
      ∀ i (hi : i < rs.length), ∃ hq : i < qs.length,
        execute_single_query (qs.get ⟨i, hq⟩) query_time (env i) (clock i)
          = .ok (rs.get ⟨i, hi⟩) := by
  have hlen_qs : qs.length = inputs.length := mapM_ok_length _ _ _ hnorm
  set tasks := qs.enum.map
    (fun p => execute_single_query p.2 query_time (env p.1) (clock p.1)) with htasks
  have hall : ∀ t ∈ tasks, ∃ r, t = .ok r := by
    intro t ht
    rcases List.mem_map.mp ht with ⟨p, _, rfl⟩
    exact execute_single_query_ok p.2 query_time (env p.1) (clock p.1)
      (fun e he => henv p.1 e he)
  rcases asyncio_gather_ok tasks hall with ⟨rs, hg, hlen, hidx⟩
  have hqm : query_multiple inputs query_time mc env clock = asyncio_gather tasks := by
    unfold query_multiple
    rw [hnorm]
  have hlen_tasks : tasks.length = qs.length := by simp [htasks]
  refine ⟨rs, by rw [hqm, hg], by rw [hlen, hlen_tasks, hlen_qs], ?_⟩
  intro i hi
  have hq2 : i < qs.length := by omega
  have hti : i < tasks.length := by omega
  have hvi := hidx i hti hi
  have hget : tasks.get ⟨i, hti⟩
      = execute_single_query (qs.get ⟨i, hq2⟩) query_time (env i) (clock i) := by
    simp [htasks, List.get_eq_getElem, List.getElem_map, List.getElem_enum]
  rw [hget] at hvi
  exact ⟨hq2, hvi⟩

/-- C1 witness: a two-query batch where the first transport call succeeds
and the second raises an APIError still yields a two-element result list in
input order. -/
theorem query_multiple_order_and_length_witness :
    ∃ rs, query_multiple [.str "up", .str "down"] none 10 mixedEnv (fun _ => 1) = .ok rs ∧
      rs.length = 2 ∧
      ∀ i (hi : i < rs.length),
        ∃ hq : i < ([⟨none, "up", none, none, none, none, none, none⟩,
            ⟨none, "down", none, none, none, none, none, none⟩] : List Query).length,
          execute_single_query
            (List.get [⟨none, "up", none, none, none, none, none, none⟩,
              ⟨none, "down", none, none, none, none, none, none⟩] ⟨i, hq⟩)
            none (mixedEnv i) ((fun _ => (1 : ℚ)) i) = .ok (rs.get ⟨i, hi⟩) :=
  query_multiple_order_and_length [.str "up", .str "down"] none 10 mixedEnv (fun _ => 1)
    [⟨none, "up", none, none, none, none, none, none⟩,
      ⟨none, "down", none, none, none, none, none, none⟩]
    rfl
    (by
      intro i e h
      unfold mixedEnv at h
      split at h
      · exact Except.noConfusion h
      · injection h with h2
        subst h2
        rfl)

end PromTools
